import Mathlib

set_option linter.unusedVariables false
set_option linter.unnecessarySeqFocus false

/-!
Shallow embedding of the vehicle-parking reservation backend
(backend/models.py, backend/user_routes.py, backend/admin_routes.py).

The durable store (MongoDB collections) is modelled as insertion-ordered
lists inside a `DB` record; `Collection.objects(...).first()` becomes
`List.find?` over that list, which matches the store's natural enumeration
order. Timestamps are rationals counting seconds (datetime arithmetic is
exact at microsecond resolution, so `ℚ` is a faithful carrier), and
Python's `round(x, 2)` is modelled as round-half-to-even at two decimal
places.
-/

namespace Parking

/-- User record (models.py, class User): only the fields the reservation
engine touches are carried. -/
structure User where
  id : String
  role : String
  last_login : Option ℚ
  last_booking : Option ℚ
deriving DecidableEq, Repr

/-- ParkingLot record (models.py, class ParkingLot). -/
structure ParkingLot where
  id : String
  prime_location_name : String
  price : ℚ
deriving DecidableEq, Repr

/-- ParkingSpot record (models.py, class ParkingSpot); `status` is the
one-character string "A" (Available) or "O" (Occupied), as in the source. -/
structure ParkingSpot where
  id : String
  lot_id : String
  spot_number : String
  status : String
deriving DecidableEq, Repr

/-- Reservation record (models.py, class Reservation); `leaving_timestamp`
is `none` while the reservation is open. -/
structure Reservation where
  spot_id : String
  user_id : String
  vehicle_number : String
  parking_timestamp : ℚ
  leaving_timestamp : Option ℚ
  parking_cost : Option ℚ
deriving DecidableEq, Repr

/-- The durable store: one insertion-ordered list per collection. -/
structure DB where
  users : List User
  lots : List ParkingLot
  spots : List ParkingSpot
  reservations : List Reservation
deriving DecidableEq, Repr

/-- Round-half-to-even to an integer, the tie-breaking rule of Python's
built-in `round`. -/
def roundHalfEven (q : ℚ) : ℤ :=
  let f := Rat.floor q
  if q - f < 1 / 2 then f
  else if (1 : ℚ) / 2 < q - f then f + 1
  else if f % 2 = 0 then f else f + 1

/-- Python's `round(x, 2)`: round to two decimal places, ties to even. -/
def round2 (q : ℚ) : ℚ := (roundHalfEven (q * 100) : ℚ) / 100

/-- Python's `str.isspace` on the ASCII whitespace characters stripped by
`str.strip()`. -/
def pyIsSpace (c : Char) : Bool :=
  c == ' ' || c == '\t' || c == '\n' || c == '\r' || c == '\x0b' || c == '\x0c'

/-- Python's `str.strip()` with no argument: drop leading and trailing
whitespace. -/
def pyStrip (s : String) : String :=
  ⟨((s.data.dropWhile pyIsSpace).reverse.dropWhile pyIsSpace).reverse⟩

/-- The query `Reservation.objects(user_id=user_id, leaving_timestamp=None)
.first()` used by book, release and get_current_reservation. -/
def findActiveReservation (db : DB) (uid : String) : Option Reservation :=
  db.reservations.find? (fun r => r.user_id == uid && r.leaving_timestamp.isNone)

/-- Reservation.calculate_cost (models.py lines 135-152): elapsed hours with
a floor of 1, times the owning lot's hourly price, rounded to 2 decimals;
0.0 when the reservation is still open or the spot or lot cannot be
resolved. -/
def calculate_cost (r : Reservation) (db : DB) : ℚ :=
  match r.leaving_timestamp with
  | none => 0
  | some tEnd =>
    let hours : ℚ := max 1 ((tEnd - r.parking_timestamp) / 3600)
    match db.spots.find? (fun s => s.id == r.spot_id) with
    | some sp =>
      match db.lots.find? (fun l => l.id == sp.lot_id) with
      | some lot => round2 (hours * lot.price)
      | none => 0
    | none => 0

/-- The JSON body of a book-spot request; `none` fields model keys absent
from `request.get_json()`. -/
structure BookRequest where
  lot_id : Option String
  vehicle_number : Option String
deriving DecidableEq, Repr

/-- Outcome of book_parking_spot; each error constructor stands for one
distinct response body of the handler. -/
inductive BookResult
  | noData
  | missingLotId
  | missingVehicleNumber
  | alreadyActive
  | lotFull
  | success (r : Reservation)
deriving DecidableEq, Repr

/-- The Reservation document built by book_parking_spot on success. -/
def mkReservation (sp : ParkingSpot) (uid veh : String) (now : ℚ) : Reservation :=
  { spot_id := sp.id, user_id := uid, vehicle_number := veh,
    parking_timestamp := now, leaving_timestamp := none, parking_cost := none }

/-- book_parking_spot (user_routes.py lines 81-163): validate the body,
reject a second open reservation, pick the first Available spot of the lot
in store order, create the reservation, occupy the spot and stamp the
user's last_booking. -/
def book_parking_spot (db : DB) (uid : String) (data : Option BookRequest)
    (now : ℚ) : BookResult × DB :=
  match data with
  | none => (.noData, db)
  | some d =>
    let lotId := d.lot_id.getD ""
    let veh := pyStrip (d.vehicle_number.getD "")
    if lotId = "" then (.missingLotId, db)
    else if veh = "" then (.missingVehicleNumber, db)
    else
      match findActiveReservation db uid with
      | some _ => (.alreadyActive, db)
      | none =>
        match db.spots.find? (fun s => s.lot_id == lotId && s.status == "A") with
        | none => (.lotFull, db)
        | some sp =>
          let r := mkReservation sp uid veh now
          (.success r,
           { db with
             reservations := db.reservations ++ [r],
             spots := db.spots.map
               (fun s => if s.id == sp.id then { s with status := "O" } else s),
             users := db.users.map
               (fun u => if u.id == uid then { u with last_booking := some now } else u) })

/-- Outcome of release_parking_spot. `internalError` is the 500 response
raised when the reservation's spot is missing from the store (the handler
dereferences `parking_spot.status` before any save, so the store is left
unchanged). -/
inductive ReleaseResult
  | noActiveReservation
  | internalError
  | released (r : Reservation)
deriving DecidableEq, Repr

/-- Write-back of the release: the first open reservation of the user (the
one `first()` returned) gets its leaving_timestamp and parking_cost set;
every other document is untouched. -/
def closeReservations (uid : String) (now cost : ℚ) :
    List Reservation → List Reservation
  | [] => []
  | r :: rs =>
    if r.user_id == uid && r.leaving_timestamp.isNone then
      { r with leaving_timestamp := some now, parking_cost := some cost } :: rs
    else r :: closeReservations uid now cost rs

/-- release_parking_spot (user_routes.py lines 168-226): close the user's
open reservation at `now`, compute its cost, and free its spot. -/
def release_parking_spot (db : DB) (uid : String) (now : ℚ) :
    ReleaseResult × DB :=
  match findActiveReservation db uid with
  | none => (.noActiveReservation, db)
  | some r =>
    let r1 := { r with leaving_timestamp := some now }
    let cost := calculate_cost r1 db
    match db.spots.find? (fun s => s.id == r.spot_id) with
    | none => (.internalError, db)
    | some sp =>
      (.released { r1 with parking_cost := some cost },
       { db with
         reservations := closeReservations uid now cost db.reservations,
         spots := db.spots.map
           (fun s => if s.id == sp.id then { s with status := "A" } else s) })

/-- Outcome of the current-reservation endpoint. -/
inductive CurrentResResult
  | authError
  | ok (r : Option Reservation)
deriving DecidableEq, Repr

/-- The `user.update_last_login()` write performed by the user_required
decorator (models.py lines 35-38, user_routes.py lines 15-35). -/
def updateLastLogin (users : List User) (uid : String) (now : ℚ) : List User :=
  users.map (fun u => if u.id == uid then { u with last_login := some now } else u)

/-- Handler body of get_current_reservation (user_routes.py lines 284-305):
returns the open reservation or None, reading only. -/
def get_current_reservation (db : DB) (uid : String) : CurrentResResult :=
  match findActiveReservation db uid with
  | none => .ok none
  | some r => .ok (some r)

/-- The full /user/current-reservation endpoint: the user_required guard
(which looks the user up, checks the role, and stamps last_login) followed
by the handler body. -/
def get_current_reservation_endpoint (db : DB) (uid : String) (now : ℚ) :
    CurrentResResult × DB :=
  match db.users.find? (fun u => u.id == uid) with
  | none => (.authError, db)
  | some u =>
    if u.role ≠ "user" then (.authError, db)
    else
      let db1 := { db with users := updateLastLogin db.users uid now }
      (get_current_reservation db1 uid, db1)

/-- A reservation-engine operation, for reasoning about sequences of calls. -/
inductive Op
  | bookOp (uid : String) (data : Option BookRequest) (now : ℚ)
  | releaseOp (uid : String) (now : ℚ)

/-- State transition of one operation (the store after the handler ran). -/
def step (db : DB) : Op → DB
  | .bookOp uid d now => (book_parking_spot db uid d now).2
  | .releaseOp uid now => (release_parking_spot db uid now).2

/-- Number of open reservations a user holds. -/
def openCount (db : DB) (uid : String) : Nat :=
  (db.reservations.filter (fun r => r.user_id == uid && r.leaving_timestamp.isNone)).length

/-- The per-user invariant: at most one open reservation per user. -/
def AtMostOneOpenPerUser (db : DB) : Prop :=
  ∀ uid : String, openCount db uid ≤ 1

/-! Concrete fixtures, used by witness and counterexample theorems. They
mirror the spec's demo scenario: a three-spot lot created by
admin_routes.create_parking_lot, whose spots are inserted in ascending
spot_number order (P001, P002, P003). -/

/-- A regular user with no history. -/
def uAlice : User := { id := "u1", role := "user", last_login := none, last_booking := none }

/-- A second regular user. -/
def uBob : User := { id := "u2", role := "user", last_login := none, last_booking := none }

/-- A third regular user. -/
def uCara : User := { id := "u3", role := "user", last_login := none, last_booking := none }

/-- The demo lot at 4.00 per hour. -/
def demoLot : ParkingLot := { id := "L1", prime_location_name := "Demo Lot", price := 4 }

/-- Spot P001 of the demo lot, Available. -/
def spot1 : ParkingSpot := { id := "s1", lot_id := "L1", spot_number := "P001", status := "A" }

/-- Spot P002 of the demo lot, Available. -/
def spot2 : ParkingSpot := { id := "s2", lot_id := "L1", spot_number := "P002", status := "A" }

/-- Spot P003 of the demo lot, Available. -/
def spot3 : ParkingSpot := { id := "s3", lot_id := "L1", spot_number := "P003", status := "A" }

/-- The store right after the demo lot is created: three Available spots,
no reservations. -/
def dbDemo : DB :=
  { users := [uAlice, uBob, uCara], lots := [demoLot],
    spots := [spot1, spot2, spot3], reservations := [] }

/-- The store after Alice books (gets P001 at t=0) and Bob books (gets
P002 at t=600). -/
def dbAfterTwoBookings : DB :=
  (book_parking_spot
    (book_parking_spot dbDemo "u1" (some { lot_id := some "L1", vehicle_number := some "KA-01-AA-0001" }) 0).2
    "u2" (some { lot_id := some "L1", vehicle_number := some "KA-01-BB-0002" }) 600).2

/-- The store after Alice releases her spot at t=4320 (1.2 hours). -/
def dbAfterRelease : DB := (release_parking_spot dbAfterTwoBookings "u1" 4320).2

/-- A one-spot lot at 5.00 per hour, for the billing examples. -/
def dbFive : DB :=
  { users := [uAlice], lots := [{ id := "L5", prime_location_name := "Five", price := 5 }],
    spots := [{ id := "sf", lot_id := "L5", spot_number := "P001", status := "O" }],
    reservations := [] }

/-- A closed 2.5-hour reservation on the 5.00 lot. -/
def resTwoHalf : Reservation :=
  { spot_id := "sf", user_id := "u1", vehicle_number := "KA-01",
    parking_timestamp := 0, leaving_timestamp := some 9000, parking_cost := none }

/-- A closed 10-minute reservation on the 5.00 lot. -/
def resTenMin : Reservation :=
  { spot_id := "sf", user_id := "u1", vehicle_number := "KA-01",
    parking_timestamp := 0, leaving_timestamp := some 600, parking_cost := none }

/-- A store in which Alice's only reservation is already closed (the state
after a completed release, as in a double-release attempt). -/
def dbClosed : DB :=
  { users := [uAlice], lots := [demoLot], spots := [spot1],
    reservations := [{ spot_id := "s1", user_id := "u1", vehicle_number := "KA-01",
                       parking_timestamp := 0, leaving_timestamp := some 3600,
                       parking_cost := some 4 }] }

/-- A store in which Alice holds an open reservation on P001. -/
def dbOpen : DB :=
  { users := [uAlice, uBob], lots := [demoLot],
    spots := [{ id := "s1", lot_id := "L1", spot_number := "P001", status := "O" }, spot2, spot3],
    reservations := [{ spot_id := "s1", user_id := "u1", vehicle_number := "KA-01",
                       parking_timestamp := 0, leaving_timestamp := none,
                       parking_cost := none }] }

/-- A store whose only lot is full: the single spot is Occupied by Bob. -/
def dbFull : DB :=
  { users := [uAlice, uBob], lots := [demoLot],
    spots := [{ id := "s1", lot_id := "L1", spot_number := "P001", status := "O" }],
    reservations := [{ spot_id := "s1", user_id := "u2", vehicle_number := "KA-02",
                       parking_timestamp := 0, leaving_timestamp := none,
                       parking_cost := none }] }

/-- A store with no lot and no spot named "ghost": booking it exercises the
missing-lot path. -/
def dbNoLot : DB :=
  { users := [uAlice], lots := [demoLot], spots := [spot1], reservations := [] }

/-- A store where Alice's open reservation sits on a spot whose lot_id
resolves to no stored lot. -/
def dbOrphanSpot : DB :=
  { users := [uAlice], lots := [],
    spots := [{ id := "s9", lot_id := "Lgone", spot_number := "P001", status := "O" }],
    reservations := [{ spot_id := "s9", user_id := "u1", vehicle_number := "KA-01",
                       parking_timestamp := 0, leaving_timestamp := none,
                       parking_cost := none }] }

/-! Theorems. -/

/-- C1: a reservation released at `tEnd` with start `tStart`, whose spot
and owning lot resolve, costs `round2 (max 1 ((tEnd - tStart)/3600h) * price)`;
in particular any session of one hour or less bills exactly one hour. -/
theorem booking_cost_formula (db : DB) (r : Reservation) (tEnd : ℚ)
    (sp : ParkingSpot) (lot : ParkingLot)
    (hend : r.leaving_timestamp = some tEnd)
    (hsp : db.spots.find? (fun s => s.id == r.spot_id) = some sp)
    (hlot : db.lots.find? (fun l => l.id == sp.lot_id) = some lot) :
    calculate_cost r db
      = round2 (max 1 ((tEnd - r.parking_timestamp) / 3600) * lot.price) ∧
    (tEnd - r.parking_timestamp ≤ 3600 → calculate_cost r db = round2 lot.price) := by
  have hc : calculate_cost r db
      = round2 (max 1 ((tEnd - r.parking_timestamp) / 3600) * lot.price) := by
    simp only [calculate_cost, hend, hsp, hlot]
  refine ⟨hc, fun hle => ?_⟩
  have h1 : (tEnd - r.parking_timestamp) / 3600 ≤ 1 := by
    rw [div_le_one (by norm_num : (0 : ℚ) < 3600)]
    linarith
  rw [hc, max_eq_left h1, one_mul]

/-- C1 witness: a 2.5-hour session at price 5.00 costs 12.50 and a
10-minute session at price 5.00 costs 5.00. -/
theorem booking_cost_formula_witness :
    calculate_cost resTwoHalf dbFive = 25 / 2 ∧ calculate_cost resTenMin dbFive = 5 := by
  constructor
  · have h := (booking_cost_formula dbFive resTwoHalf 9000
      { id := "sf", lot_id := "L5", spot_number := "P001", status := "O" }
      { id := "L5", prime_location_name := "Five", price := 5 }
      rfl (by decide) (by decide)).1
    rw [h]
    norm_num [resTwoHalf, round2, roundHalfEven, Rat.floor]
  · have h := (booking_cost_formula dbFive resTenMin 600
      { id := "sf", lot_id := "L5", spot_number := "P001", status := "O" }
      { id := "L5", prime_location_name := "Five", price := 5 }
      rfl (by decide) (by decide)).2 (by norm_num [resTenMin])
    rw [h]
    norm_num [round2, roundHalfEven, Rat.floor]

/-- C4: a book call by a user who already holds an open reservation fails
with the already-active error and leaves the store (spots, reservations,
everything) unchanged, whatever the target lot. -/
theorem book_already_active (db : DB) (uid : String) (d : BookRequest) (now : ℚ)
    (r : Reservation)
    (hlot : d.lot_id.getD "" ≠ "")
    (hveh : pyStrip (d.vehicle_number.getD "") ≠ "")
    (hact : findActiveReservation db uid = some r) :
    book_parking_spot db uid (some d) now = (.alreadyActive, db) := by
  simp [book_parking_spot, hlot, hveh, hact]

/-- C4 witness: Alice, already parked on P001, books again and is rejected
with the store unchanged. -/
theorem book_already_active_witness :
    book_parking_spot dbOpen "u1"
      (some { lot_id := some "L1", vehicle_number := some "KA-09" }) 77
      = (.alreadyActive, dbOpen) :=
  book_already_active dbOpen "u1" { lot_id := some "L1", vehicle_number := some "KA-09" } 77
    { spot_id := "s1", user_id := "u1", vehicle_number := "KA-01",
      parking_timestamp := 0, leaving_timestamp := none, parking_cost := none }
    (by decide) (by decide) (by decide)

/-- C5: booking a lot that exists but has no Available spot (every spot of
the lot is Occupied) fails with the lot-full error and changes nothing. -/
theorem book_lot_full (db : DB) (uid : String) (d : BookRequest) (now : ℚ)
    (L : String) (lot : ParkingLot)
    (hlotid : d.lot_id = some L) (hL : L ≠ "")
    (hveh : pyStrip (d.vehicle_number.getD "") ≠ "")
    (hact : findActiveReservation db uid = none)
    (hmem : lot ∈ db.lots) (hid : lot.id = L)
    (hfull : ∀ s ∈ db.spots, s.lot_id = L → s.status = "O") :
    book_parking_spot db uid (some d) now = (.lotFull, db) := by
  have hn : db.spots.find? (fun s => s.lot_id == L && s.status == "A") = none := by
    rw [List.find?_eq_none]
    intro s hs
    simp only [Bool.and_eq_true, beq_iff_eq, not_and]
    intro h1 h2
    have h3 := hfull s hs h1
    rw [h3] at h2
    exact absurd h2 (by decide)
  simp [book_parking_spot, hlotid, hL, hveh, hact, hn]

/-- C5 witness: the one-spot demo lot is fully occupied by Bob; Alice's
booking is rejected with the lot-full error. -/
theorem book_lot_full_witness :
    book_parking_spot dbFull "u1"
      (some { lot_id := some "L1", vehicle_number := some "KA-05" }) 5
      = (.lotFull, dbFull) :=
  book_lot_full dbFull "u1" { lot_id := some "L1", vehicle_number := some "KA-05" } 5
    "L1" demoLot rfl (by decide) (by decide) (by decide) (by decide) rfl (by decide)

/-- C3 (amended): booking a lot id that references no stored lot (hence no
stored spot) produces the very same lot-full error as an existing-but-full
lot — the handler never checks lot existence, so no distinct not-found
error is returned; the store is unchanged. -/
theorem book_missing_lot_same_as_full (db : DB) (uid : String) (d : BookRequest)
    (now : ℚ) (L : String)
    (hlotid : d.lot_id = some L) (hL : L ≠ "")
    (hveh : pyStrip (d.vehicle_number.getD "") ≠ "")
    (hact : findActiveReservation db uid = none)
    (hnolot : ∀ l ∈ db.lots, l.id ≠ L)
    (hnospot : ∀ s ∈ db.spots, s.lot_id ≠ L) :
    book_parking_spot db uid (some d) now = (.lotFull, db) := by
  have hn : db.spots.find? (fun s => s.lot_id == L && s.status == "A") = none := by
    rw [List.find?_eq_none]
    intro s hs
    simp only [Bool.and_eq_true, beq_iff_eq, not_and]
    intro h1 _
    exact absurd h1 (hnospot s hs)
  simp [book_parking_spot, hlotid, hL, hveh, hact, hn]

/-- C3 counterexample: booking the nonexistent lot "ghost" returns exactly
the same lot-full result value that booking the existing-but-full lot "L1"
returns — not a distinct not-found error. -/
theorem book_missing_lot_counterexample :
    (∀ l ∈ dbNoLot.lots, l.id ≠ "ghost") ∧
    book_parking_spot dbNoLot "u1"
      (some { lot_id := some "ghost", vehicle_number := some "KA-07" }) 9
      = (.lotFull, dbNoLot) ∧
    book_parking_spot dbFull "u1"
      (some { lot_id := some "L1", vehicle_number := some "KA-07" }) 9
      = (.lotFull, dbFull) :=
  ⟨by decide, by decide, by decide⟩

/-- C3 (amended) witness: instance of the amended statement at the "ghost"
lot input. -/
theorem book_missing_lot_same_as_full_witness :
    book_parking_spot dbNoLot "u1"
      (some { lot_id := some "ghost", vehicle_number := some "KA-08" }) 9
      = (.lotFull, dbNoLot) :=
  book_missing_lot_same_as_full dbNoLot "u1"
    { lot_id := some "ghost", vehicle_number := some "KA-08" } 9 "ghost"
    rfl (by decide) (by decide) (by decide) (by decide) (by decide)

/-- C7: a release by a user with no open reservation (for instance a second
release of an already-closed one) fails with the no-active-reservation
error and leaves the store untouched: no reservation mutated, no cost
charged, no spot status changed. -/
theorem release_no_active (db : DB) (uid : String) (now : ℚ)
    (h : findActiveReservation db uid = none) :
    release_parking_spot db uid now = (.noActiveReservation, db) := by
  simp [release_parking_spot, h]

/-- C7 witness: Alice's only reservation is already closed; releasing again
fails and changes nothing. -/
theorem release_no_active_witness :
    release_parking_spot dbClosed "u1" 9999 = (.noActiveReservation, dbClosed) :=
  release_no_active dbClosed "u1" 9999 (by decide)

/-- C9: when the open reservation's spot exists but the spot's lot_id
resolves to no stored lot, release still succeeds and the computed parking
cost is exactly 0. -/
theorem release_unresolvable_lot_cost_zero (db : DB) (uid : String) (now : ℚ)
    (r : Reservation) (sp : ParkingSpot)
    (hact : findActiveReservation db uid = some r)
    (hsp : db.spots.find? (fun s => s.id == r.spot_id) = some sp)
    (hlot : db.lots.find? (fun l => l.id == sp.lot_id) = none) :
    (release_parking_spot db uid now).1 =
      .released { r with leaving_timestamp := some now, parking_cost := some 0 } := by
  have hcost : calculate_cost { r with leaving_timestamp := some now } db = 0 := by
    simp only [calculate_cost, hsp, hlot]
  simp [release_parking_spot, hact, hsp, hcost]

/-- C9 witness: Alice releases a spot whose lot has been deleted from the
store; the release succeeds with cost 0. -/
theorem release_unresolvable_lot_cost_zero_witness :
    (release_parking_spot dbOrphanSpot "u1" 1800).1 =
      .released { spot_id := "s9", user_id := "u1", vehicle_number := "KA-01",
                  parking_timestamp := 0, leaving_timestamp := some 1800,
                  parking_cost := some 0 } :=
  release_unresolvable_lot_cost_zero dbOrphanSpot "u1" 1800
    { spot_id := "s9", user_id := "u1", vehicle_number := "KA-01",
      parking_timestamp := 0, leaving_timestamp := none, parking_cost := none }
    { id := "s9", lot_id := "Lgone", spot_number := "P001", status := "O" }
    (by decide) (by decide) (by decide)

/-- C10: input validation precedes the business-rule checks in book — even
for a user who already holds an open reservation, a missing lot id is
answered with the lot-id-required error and an empty (after stripping)
vehicle number with the vehicle-number-required error, never with
already-active; the store is unchanged. -/
theorem book_validation_precedes_business (db : DB) (uid : String)
    (d : BookRequest) (now : ℚ) (r : Reservation)
    (hact : findActiveReservation db uid = some r) :
    (d.lot_id.getD "" = "" →
      book_parking_spot db uid (some d) now = (.missingLotId, db)) ∧
    (d.lot_id.getD "" ≠ "" → pyStrip (d.vehicle_number.getD "") = "" →
      book_parking_spot db uid (some d) now = (.missingVehicleNumber, db)) := by
  constructor
  · intro h0
    simp [book_parking_spot, h0]
  · intro h1 h2
    simp [book_parking_spot, h1, h2]

/-- C10 witness: Alice already has an open reservation; a whitespace-only
vehicle number gets the vehicle-number error and a missing lot id gets the
lot-id error, not already-active. -/
theorem book_validation_precedes_business_witness :
    book_parking_spot dbOpen "u1"
      (some { lot_id := some "L1", vehicle_number := some "   " }) 50
      = (.missingVehicleNumber, dbOpen) ∧
    book_parking_spot dbOpen "u1"
      (some { lot_id := none, vehicle_number := some "KA-09" }) 50
      = (.missingLotId, dbOpen) :=
  ⟨(book_validation_precedes_business dbOpen "u1"
      { lot_id := some "L1", vehicle_number := some "   " } 50
      { spot_id := "s1", user_id := "u1", vehicle_number := "KA-01",
        parking_timestamp := 0, leaving_timestamp := none, parking_cost := none }
      (by decide)).2 (by decide) (by decide),
   (book_validation_precedes_business dbOpen "u1"
      { lot_id := none, vehicle_number := some "KA-09" } 50
      { spot_id := "s1", user_id := "u1", vehicle_number := "KA-01",
        parking_timestamp := 0, leaving_timestamp := none, parking_cost := none }
      (by decide)).1 (by decide)⟩

/-- C8 counterexample: the current-reservation endpoint is not a pure read
at the stored-state level — invoking it on the demo store changes the
store (the requesting user's last_login is stamped by the user_required
guard). -/
theorem current_reservation_mutates_counterexample :
    (get_current_reservation_endpoint dbDemo "u1" 100).2 ≠ dbDemo := by
  decide

/-- C8 (amended): for an existing user of role "user", the
current-reservation endpoint returns the user's open reservation (or none),
changes no ParkingLot, ParkingSpot, or Reservation record, and its only
write is the last_login stamp applied by the user_required guard. -/
theorem current_reservation_amended (db : DB) (uid : String) (now : ℚ) (u : User)
    (hu : db.users.find? (fun x => x.id == uid) = some u)
    (hrole : u.role = "user") :
    get_current_reservation_endpoint db uid now =
      (.ok (findActiveReservation db uid),
       { db with users := updateLastLogin db.users uid now }) := by
  have hbody : get_current_reservation
      { db with users := updateLastLogin db.users uid now } uid
      = CurrentResResult.ok (findActiveReservation db uid) := by
    show (match findActiveReservation db uid with
          | none => CurrentResResult.ok none
          | some r => CurrentResResult.ok (some r))
        = CurrentResResult.ok (findActiveReservation db uid)
    cases findActiveReservation db uid <;> rfl
  simp only [get_current_reservation_endpoint, hu]
  rw [if_neg (by simp [hrole])]
  rw [hbody]

/-- C8 (amended) witness: instance on the store where Alice is parked on
P001. -/
theorem current_reservation_amended_witness :
    get_current_reservation_endpoint dbOpen "u1" 200 =
      (.ok (findActiveReservation dbOpen "u1"),
       { dbOpen with users := updateLastLogin dbOpen.users "u1" 200 }) :=
  current_reservation_amended dbOpen "u1" 200 uAlice (by decide) rfl

/-- If a user has no open reservation, the open-reservation filter for that
user is empty. -/
lemma findActive_none_filter (db : DB) (uid : String)
    (h : findActiveReservation db uid = none) :
    db.reservations.filter (fun r => r.user_id == uid && r.leaving_timestamp.isNone) = [] := by
  rw [findActiveReservation, List.find?_eq_none] at h
  rw [List.filter_eq_nil_iff]
  exact h

/-- book never raises any user's open-reservation count above one. -/
lemma book_preserves_invariant (db : DB) (uid : String) (d : Option BookRequest)
    (now : ℚ) (h : AtMostOneOpenPerUser db) :
    AtMostOneOpenPerUser (book_parking_spot db uid d now).2 := by
  intro uid'
  rcases d with _ | d
  · exact h uid'
  · simp only [book_parking_spot]
    split
    · exact h uid'
    split
    · exact h uid'
    split
    · exact h uid'
    next heq =>
    split
    · exact h uid'
    next sp heq2 =>
    unfold openCount
    dsimp only
    rw [List.filter_append, List.length_append]
    rcases eq_or_ne uid uid' with rfl | hne
    · have hempty := findActive_none_filter db uid heq
      rw [hempty]
      simp [mkReservation]
    · have hnew : List.filter (fun r => r.user_id == uid' && r.leaving_timestamp.isNone)
          [mkReservation sp uid (pyStrip (d.vehicle_number.getD "")) now] = [] := by
        simp [mkReservation, hne]
      rw [hnew]
      simpa using h uid'

/-- Closing a reservation can only shrink any user's open-reservation
count. -/
lemma filter_closeReservations_le (uid uid' : String) (now cost : ℚ)
    (l : List Reservation) :
    (List.filter (fun r => r.user_id == uid' && r.leaving_timestamp.isNone)
      (closeReservations uid now cost l)).length ≤
    (List.filter (fun r => r.user_id == uid' && r.leaving_timestamp.isNone) l).length := by
  induction l with
  | nil => simp [closeReservations]
  | cons r rs ih =>
    rw [closeReservations]
    split
    · simp only [List.filter_cons]
      have hfalse : (({ r with leaving_timestamp := some now, parking_cost := some cost }
          : Reservation).user_id == uid'
          && ({ r with leaving_timestamp := some now, parking_cost := some cost }
          : Reservation).leaving_timestamp.isNone) = false := by
        simp
      rw [hfalse]
      simp only [Bool.false_eq_true, if_false]
      split
      · exact Nat.le_succ _
      · exact le_refl _
    · simp only [List.filter_cons]
      split
      · simpa using Nat.succ_le_succ ih
      · exact ih

/-- release never raises any user's open-reservation count. -/
lemma release_preserves_invariant (db : DB) (uid : String) (now : ℚ)
    (h : AtMostOneOpenPerUser db) :
    AtMostOneOpenPerUser (release_parking_spot db uid now).2 := by
  intro uid'
  simp only [release_parking_spot]
  split
  · exact h uid'
  next r heq =>
  split
  · exact h uid'
  next sp heq2 =>
  unfold openCount
  dsimp only
  exact le_trans (filter_closeReservations_le uid uid' now _ db.reservations) (h uid')

/-- C2: starting from any store satisfying it, the at-most-one-open-
reservation-per-user invariant holds after every sequence of book and
release operations. -/
theorem at_most_one_open_reservation (db : DB) (h : AtMostOneOpenPerUser db)
    (ops : List Op) : AtMostOneOpenPerUser (ops.foldl step db) := by
  induction ops generalizing db with
  | nil => exact h
  | cons op rest ih =>
    rw [List.foldl_cons]
    apply ih
    cases op with
    | bookOp uid d now => exact book_preserves_invariant db uid d now h
    | releaseOp uid now => exact release_preserves_invariant db uid now h

/-- C2 witness: a concrete session — Alice books, tries to book again, and
releases twice — keeps the invariant from the empty demo store. -/
theorem at_most_one_open_reservation_witness :
    AtMostOneOpenPerUser (List.foldl step dbDemo
      [Op.bookOp "u1" (some { lot_id := some "L1", vehicle_number := some "KA-01" }) 0,
       Op.bookOp "u1" (some { lot_id := some "L1", vehicle_number := some "KA-02" }) 60,
       Op.releaseOp "u1" 3600,
       Op.releaseOp "u1" 3700]) :=
  at_most_one_open_reservation dbDemo
    (fun uid => by simp [openCount, dbDemo]) _

/-- The first Available spot of lot `L` in store order is, when the lot's
spots are pairwise ordered by spot_number, the Available spot with the
lowest spot_number. -/
lemma find?_avail_min (L : String) (l : List ParkingSpot)
    (hord : l.Pairwise
      (fun a b => a.lot_id = L → b.lot_id = L → a.spot_number ≤ b.spot_number))
    (sp : ParkingSpot)
    (hfind : l.find? (fun s => s.lot_id == L && s.status == "A") = some sp) :
    ∀ s' ∈ l, s'.lot_id = L → s'.status = "A" → sp.spot_number ≤ s'.spot_number := by
  induction l with
  | nil => simp at hfind
  | cons a t ih =>
    rcases List.pairwise_cons.mp hord with ⟨hhead, htail⟩
    by_cases hp : (a.lot_id == L && a.status == "A") = true
    · simp only [List.find?, hp] at hfind
      injection hfind with h
      subst h
      simp only [Bool.and_eq_true, beq_iff_eq] at hp
      intro s' hs' h1 _
      rcases List.mem_cons.mp hs' with rfl | hmem
      · exact le_refl _
      · exact hhead s' hmem hp.1 h1
    · rw [Bool.not_eq_true] at hp
      simp only [List.find?, hp] at hfind
      intro s' hs' h1 h2
      rcases List.mem_cons.mp hs' with rfl | hmem
      · rw [Bool.eq_false_iff] at hp
        exact absurd (by simp [h1, h2]) hp
      · exact ih htail hfind s' hmem h1 h2

/-- C6: a successful book call picks the first Available spot of the lot in
store order; when the lot's spots are stored in ascending spot_number order
(as admin_routes.create_parking_lot creates them), that is exactly the
Available spot with the lowest spot_number, a deterministic tie-break. -/
theorem book_picks_lowest_spot_number (db : DB) (uid : String) (d : BookRequest)
    (now : ℚ) (L : String) (sp : ParkingSpot)
    (hlotid : d.lot_id = some L) (hL : L ≠ "")
    (hveh : pyStrip (d.vehicle_number.getD "") ≠ "")
    (hact : findActiveReservation db uid = none)
    (hord : db.spots.Pairwise
      (fun a b => a.lot_id = L → b.lot_id = L → a.spot_number ≤ b.spot_number))
    (hfind : db.spots.find? (fun s => s.lot_id == L && s.status == "A") = some sp) :
    (book_parking_spot db uid (some d) now).1
      = .success (mkReservation sp uid (pyStrip (d.vehicle_number.getD "")) now) ∧
    sp.lot_id = L ∧ sp.status = "A" ∧
    ∀ s' ∈ db.spots, s'.lot_id = L → s'.status = "A" →
      sp.spot_number ≤ s'.spot_number := by
  have hp := List.find?_some hfind
  simp only [Bool.and_eq_true, beq_iff_eq] at hp
  refine ⟨?_, hp.1, hp.2, find?_avail_min L db.spots hord sp hfind⟩
  simp [book_parking_spot, hlotid, hL, hveh, hact, hfind]

/-- C6 witness: in the demo lot, after Alice (P001) and Bob (P002) book and
Alice releases, Cara's booking reuses P001 — the lowest-numbered Available
spot — rather than P003. -/
theorem book_picks_lowest_spot_number_witness :
    (book_parking_spot dbAfterRelease "u3"
      (some { lot_id := some "L1", vehicle_number := some "KA-01-CC-0003" }) 5000).1
      = .success (mkReservation spot1 "u3" "KA-01-CC-0003" 5000) ∧
    spot1.lot_id = "L1" ∧ spot1.status = "A" ∧
    ∀ s' ∈ dbAfterRelease.spots, s'.lot_id = "L1" → s'.status = "A" →
      spot1.spot_number ≤ s'.spot_number :=
  book_picks_lowest_spot_number dbAfterRelease "u3"
    { lot_id := some "L1", vehicle_number := some "KA-01-CC-0003" } 5000 "L1" spot1
    rfl (by decide) (by decide) (by decide)
    (by
      have hs : dbAfterRelease.spots
          = [{ id := "s1", lot_id := "L1", spot_number := "P001", status := "A" },
             { id := "s2", lot_id := "L1", spot_number := "P002", status := "O" },
             { id := "s3", lot_id := "L1", spot_number := "P003", status := "A" }] := by
        decide
      rw [hs]
      simp [List.pairwise_cons, String.le_iff_toList_le] <;> decide)
    (by decide)

end Parking
